import Mathlib

/-!
Verification of the command-description core of the rust-s3 client
(src/s3/src/command.rs): the Command catalog and its four derivation
functions (http verb, content length, content type, SHA-256 payload
digest), together with the Multipart and ContentMd5 helper types.

Bytes are modelled as lists of naturals below 256; machine words are
naturals reduced modulo 2 to the 32. SHA-256 is implemented in full so
that digest equalities are decidable on concrete inputs.
-/

namespace RustS3

/-- Reduction of a natural number to a 32-bit word. -/
def w32 (n : Nat) : Nat := n % 4294967296

/-- Right rotation of a 32-bit word by k bits. -/
def rotr32 (k n : Nat) : Nat := w32 ((n >>> k) ||| (n <<< (32 - k)))

/-- Big-endian 4-byte decomposition of a 32-bit word. -/
def be32 (n : Nat) : List Nat :=
  [(n >>> 24) % 256, (n >>> 16) % 256, (n >>> 8) % 256, n % 256]

/-- Big-endian 8-byte decomposition of a 64-bit length field. -/
def be64 (n : Nat) : List Nat :=
  [(n >>> 56) % 256, (n >>> 48) % 256, (n >>> 40) % 256, (n >>> 32) % 256,
   (n >>> 24) % 256, (n >>> 16) % 256, (n >>> 8) % 256, n % 256]

/-- SHA-256 round constants, written in decimal. -/
def sha256K : List Nat :=
  [1116352408, 1899447441, 3049323471, 3921009573, 961987163,
   1508970993, 2453635748, 2870763221, 3624381080, 310598401,
   607225278, 1426881987, 1925078388, 2162078206, 2614888103,
   3248222580, 3835390401, 4022224774, 264347078, 604807628,
   770255983, 1249150122, 1555081692, 1996064986, 2554220882,
   2821834349, 2952996808, 3210313671, 3336571891, 3584528711,
   113926993, 338241895, 666307205, 773529912, 1294757372,
   1396182291, 1695183700, 1986661051, 2177026350, 2456956037,
   2730485921, 2820302411, 3259730800, 3345764771, 3516065817,
   3600352804, 4094571909, 275423344, 430227734, 506948616,
   659060556, 883997877, 958139571, 1322822218, 1537002063,
   1747873779, 1955562222, 2024104815, 2227730452, 2361852424,
   2428436474, 2756734187, 3204031479, 3329325298]

/-- SHA-256 initial hash state, written in decimal. -/
def sha256H0 : List Nat :=
  [1779033703, 3144134277, 1013904242, 2773480762,
   1359893119, 2600822924, 528734635, 1541459225]

/-- Standard SHA-256 message padding: a 0x80 byte, zeros, then the bit length. -/
def sha256Pad (msg : List Nat) : List Nat :=
  let L := msg.length
  let k := (120 - ((L + 1) % 64)) % 64
  msg ++ 0x80 :: List.replicate k 0 ++ be64 (8 * L)

/-- Group a byte list into big-endian 32-bit words, four bytes at a time. -/
def bytesToWords : List Nat → List Nat
  | a :: b :: c :: d :: rest =>
      (a <<< 24 ||| b <<< 16 ||| c <<< 8 ||| d) :: bytesToWords rest
  | _ => []

/-- Split a byte list into 64-byte blocks, with fuel bounding the recursion depth. -/
def chunks64Aux : Nat → List Nat → List (List Nat)
  | 0, _ => []
  | _, [] => []
  | fuel + 1, l => l.take 64 :: chunks64Aux fuel (l.drop 64)

/-- Split a byte list into 64-byte blocks. -/
def chunks64 (l : List Nat) : List (List Nat) := chunks64Aux l.length l

/-- Extend the 16 message words of one block to the 64-entry schedule. -/
def sha256Schedule (ws : List Nat) : List Nat :=
  (List.range 48).foldl
    (fun ws _ =>
      let n := ws.length
      let s0w := ws.getD (n - 15) 0
      let s1w := ws.getD (n - 2) 0
      let s0 := (rotr32 7 s0w) ^^^ (rotr32 18 s0w) ^^^ (s0w >>> 3)
      let s1 := (rotr32 17 s1w) ^^^ (rotr32 19 s1w) ^^^ (s1w >>> 10)
      ws ++ [w32 (ws.getD (n - 16) 0 + s0 + ws.getD (n - 7) 0 + s1)])
    ws

/-- One SHA-256 compression round on the eight-word working state. -/
def sha256Round (st : List Nat) (kw : Nat × Nat) : List Nat :=
  let a := st.getD 0 0
  let b := st.getD 1 0
  let c := st.getD 2 0
  let d := st.getD 3 0
  let e := st.getD 4 0
  let f := st.getD 5 0
  let g := st.getD 6 0
  let h := st.getD 7 0
  let S1 := (rotr32 6 e) ^^^ (rotr32 11 e) ^^^ (rotr32 25 e)
  let ch := (e &&& f) ^^^ ((4294967295 - e) &&& g)
  let t1 := w32 (h + S1 + ch + kw.1 + kw.2)
  let S0 := (rotr32 2 a) ^^^ (rotr32 13 a) ^^^ (rotr32 22 a)
  let mj := (a &&& b) ^^^ (a &&& c) ^^^ (b &&& c)
  let t2 := w32 (S0 + mj)
  [w32 (t1 + t2), a, b, c, w32 (d + t1), e, f, g]

/-- Compress one 64-byte block into the running hash state. -/
def sha256Block (h : List Nat) (block : List Nat) : List Nat :=
  let ws := sha256Schedule (bytesToWords block)
  let st := (sha256K.zip ws).foldl sha256Round h
  (h.zip st).map (fun p => w32 (p.1 + p.2))

/-- SHA-256 of a byte list, as the 32-byte digest. -/
def sha256Bytes (msg : List Nat) : List Nat :=
  (((chunks64 (sha256Pad msg)).foldl sha256Block sha256H0).map be32).foldr (· ++ ·) []

/-- Lowercase hexadecimal digit characters. -/
def hexDigit (n : Nat) : Char := "0123456789abcdef".toList.getD n '0'

/-- Lowercase hexadecimal rendering of a byte list. -/
def hexEncode (bs : List Nat) : String :=
  String.mk (bs.foldr (fun b acc => hexDigit (b / 16) :: hexDigit (b % 16) :: acc) [])

/-- Hex-encoded SHA-256 digest of a byte list, as produced by the sha2 and hex crates. -/
def sha256Hex (msg : List Nat) : String := hexEncode (sha256Bytes msg)

/-- Standard base64 alphabet, as used by the base64 crate's STANDARD engine. -/
def base64Alphabet : List Char :=
  "ABCDEFGHIJKLMNOPQRSTUVWXYZabcdefghijklmnopqrstuvwxyz0123456789+/".toList

/-- Character of the standard base64 alphabet at a 6-bit index. -/
def base64Char (n : Nat) : Char := base64Alphabet.getD n 'A'

/-- Standard base64 encoding with padding, three input bytes to four output characters. -/
def base64Chars : List Nat → List Char
  | [] => []
  | [a] =>
      [base64Char (a >>> 2), base64Char ((a &&& 3) <<< 4), '=', '=']
  | [a, b] =>
      [base64Char (a >>> 2), base64Char (((a &&& 3) <<< 4) ||| (b >>> 4)),
       base64Char ((b &&& 15) <<< 2), '=']
  | a :: b :: c :: rest =>
      base64Char (a >>> 2) :: base64Char (((a &&& 3) <<< 4) ||| (b >>> 4)) ::
      base64Char (((b &&& 15) <<< 2) ||| (c >>> 6)) :: base64Char (c &&& 63) ::
      base64Chars rest

/-- Standard base64 encoding of a byte list as a string. -/
def base64Encode (bs : List Nat) : String := String.mk (base64Chars bs)

/-- UTF-8 encoding of a single code point as bytes. -/
def utf8EncodeChar (c : Nat) : List Nat :=
  if c < 0x80 then [c]
  else if c < 0x800 then
    [0xc0 ||| (c >>> 6), 0x80 ||| (c &&& 0x3f)]
  else if c < 0x10000 then
    [0xe0 ||| (c >>> 12), 0x80 ||| ((c >>> 6) &&& 0x3f), 0x80 ||| (c &&& 0x3f)]
  else
    [0xf0 ||| (c >>> 18), 0x80 ||| ((c >>> 12) &&& 0x3f),
     0x80 ||| ((c >>> 6) &&& 0x3f), 0x80 ||| (c &&& 0x3f)]

/-- UTF-8 byte sequence of a string; a Rust str's byte view, so that
the Rust str len method equals the length of this list. -/
def utf8Bytes (s : String) : List Nat :=
  s.data.foldr (fun c acc => utf8EncodeChar c.toNat ++ acc) []

/-! ## The data model of src/s3/src/command.rs -/

/-- HttpMethod enumeration from command.rs. -/
inductive HttpMethod where
  | Delete
  | Get
  | Put
  | Post
  | Head
deriving DecidableEq, Repr

/-- Display rendering of HttpMethod from command.rs. -/
def HttpMethod.render : HttpMethod → String
  | .Delete => "DELETE"
  | .Get => "GET"
  | .Post => "POST"
  | .Put => "PUT"
  | .Head => "HEAD"

/-- Multipart struct from command.rs: a part number paired with an upload id. -/
structure Multipart where
  part_number : Nat
  upload_id : String
deriving DecidableEq, Repr

/-- Multipart query string, from command.rs: a format call interpolating
the part number in decimal and the upload id verbatim. -/
def Multipart.query_string (m : Multipart) : String :=
  "?partNumber=" ++ toString m.part_number ++ "&uploadId=" ++ m.upload_id

/-- Multipart constructor from command.rs. -/
def Multipart.new (part_number : Nat) (upload_id : String) : Multipart :=
  ⟨part_number, upload_id⟩

/-- ContentMd5 tri-state enumeration from command.rs; the Rust default is Auto. -/
inductive ContentMd5 where
  | Some (digest : String)
  | None
  | Auto
deriving DecidableEq, Repr

/-- Conversion of a byte slice into ContentMd5, from command.rs: the bytes are
base64-encoded with the STANDARD engine and wrapped in the Some variant.
Note the source performs no MD5 computation here. -/
def ContentMd5.fromBytes (value : List Nat) : ContentMd5 :=
  ContentMd5.Some (base64Encode value)

/-- Modelled from the spec: the single error type of the crate (S3Error, defined
outside src/) wraps serialization failures from configuration collaborators. -/
inductive S3Error where
  | serde (msg : String)
deriving DecidableEq, Repr

/-- Modelled from the spec: the completion manifest (CompleteMultipartUploadData,
defined outside src/); only its string serialization and its len method, the
byte length of that string form, are consumed by this module. -/
structure CompleteMultipartUploadData where
  serialized : String
deriving DecidableEq, Repr

/-- Modelled from the spec: the to_string serialization of a completion manifest. -/
def CompleteMultipartUploadData.to_string (d : CompleteMultipartUploadData) : String :=
  d.serialized

/-- Modelled from the spec: the len method of a completion manifest, the byte
length of the serialized string form. -/
def CompleteMultipartUploadData.len (d : CompleteMultipartUploadData) : Nat :=
  (utf8Bytes d.serialized).length

/-- Modelled from the spec: the bucket configuration (defined outside src/)
exposes an optional location-constraint payload accessor, absent for the
service-default region. -/
structure BucketConfiguration where
  locationConstraint : Option String
deriving DecidableEq, Repr

/-- Modelled from the spec: the location-constraint payload accessor. -/
def BucketConfiguration.location_constraint_payload (c : BucketConfiguration) :
    Option String :=
  c.locationConstraint

/-- Modelled from the spec: the lifecycle configuration (defined outside src/);
only its fallible serialize-to-XML-string capability is consumed, so it is
modelled by the outcome of that serialization. -/
structure BucketLifecycleConfiguration where
  xmlOutcome : Except String String
deriving Repr

/-- Equality of serialization outcomes is decidable. -/
instance : DecidableEq (Except String String) := fun a b =>
  match a, b with
  | .ok x, .ok y =>
      if h : x = y then isTrue (by rw [h]) else isFalse (fun he => by cases he; exact h rfl)
  | .ok _, .error _ => isFalse (fun he => by cases he)
  | .error _, .ok _ => isFalse (fun he => by cases he)
  | .error x, .error y =>
      if h : x = y then isTrue (by rw [h]) else isFalse (fun he => by cases he; exact h rfl)

/-- Equality of lifecycle configurations is decidable. -/
instance : DecidableEq BucketLifecycleConfiguration := fun a b =>
  match a, b with
  | ⟨x⟩, ⟨y⟩ =>
      if h : x = y then isTrue (by rw [h]) else isFalse (fun he => by cases he; exact h rfl)

/-- Modelled from the spec: the quick_xml string serializer applied to a
lifecycle configuration, which may fail. -/
def quickXmlSeToString (c : BucketLifecycleConfiguration) : Except String String :=
  c.xmlOutcome

/-- Modelled from the spec: the fixed well-known digest of the empty byte
sequence (EMPTY_PAYLOAD_SHA, a crate-root constant outside src/): 64 lowercase
hex characters, the SHA-256 of zero bytes. -/
def EMPTY_PAYLOAD_SHA : String :=
  "e3b0c44298fc1c149afbf4c8996fb92427ae41e4649b934ca495991b7852b855"

/-- Modelled from the spec: custom query maps and header maps carried by the
presign variants; only their presence is relevant to this module. -/
def StringMap : Type := List (String × String)

/-- Equality on string maps is decidable. -/
instance : DecidableEq StringMap :=
  inferInstanceAs (DecidableEq (List (String × String)))

/-- String maps are printable. -/
instance : Repr StringMap :=
  inferInstanceAs (Repr (List (String × String)))

/-- Modelled from the spec: CORS configuration (defined outside src/); no
capability of it is consumed by this module. -/
structure CorsConfiguration where
  opaqueTag : Nat
deriving DecidableEq, Repr

/-- Command enumeration from command.rs: the closed catalog of operations,
with byte slices as lists of bytes, str references as strings, and integer
fields as naturals. -/
inductive Command where
  | HeadObject
  | CopyObject (frm : String)
  | DeleteObject
  | DeleteObjectTagging
  | GetObject
  | GetObjectTorrent
  | GetObjectRange (start : Nat) (end_ : Option Nat)
  | GetObjectTagging
  | PutObject (content : List Nat) (content_md5 : ContentMd5) (content_type : String)
      (multipart : Option Multipart) (cache_control : Option String)
      (content_disposition : Option String)
  | PutObjectTagging (tags : String)
  | ListMultipartUploads (prefix_ : Option String) (delimiter : Option String)
      (key_marker : Option String) (max_uploads : Option Nat)
  | ListObjects (prefix_ : String) (delimiter : Option String) (marker : Option String)
      (max_keys : Option Nat)
  | ListObjectsV2 (prefix_ : String) (delimiter : Option String)
      (continuation_token : Option String) (start_after : Option String)
      (max_keys : Option Nat)
  | GetBucketLocation
  | PresignGet (expiry_secs : Nat) (custom_queries : Option StringMap)
  | PresignPut (expiry_secs : Nat) (custom_headers : Option StringMap)
      (custom_queries : Option StringMap)
  | PresignDelete (expiry_secs : Nat)
  | InitiateMultipartUpload (content_type : String)
  | UploadPart (part_number : Nat) (content : List Nat) (content_md5 : ContentMd5)
      (upload_id : String)
  | AbortMultipartUpload (upload_id : String)
  | CompleteMultipartUpload (upload_id : String) (data : CompleteMultipartUploadData)
      (cache_control : Option String) (content_disposition : Option String)
  | CreateBucket (config : BucketConfiguration)
  | DeleteBucket
  | ListBuckets
  | PutBucketCors (configuration : CorsConfiguration)
  | GetBucketLifecycle
  | PutBucketLifecycle (configuration : BucketLifecycleConfiguration)
  | DeleteBucketLifecycle
deriving DecidableEq, Repr

/-- HTTP verb derivation from command.rs, arm for arm. -/
def Command.http_verb : Command → HttpMethod
  | .GetObject
  | .GetObjectTorrent
  | .GetObjectRange _ _
  | .ListBuckets
  | .ListObjects _ _ _ _
  | .ListObjectsV2 _ _ _ _ _
  | .GetBucketLocation
  | .GetObjectTagging
  | .GetBucketLifecycle
  | .ListMultipartUploads _ _ _ _
  | .PresignGet _ _ => .Get
  | .PutObject _ _ _ _ _ _
  | .CopyObject _
  | .PutObjectTagging _
  | .PresignPut _ _ _
  | .UploadPart _ _ _ _
  | .PutBucketCors _
  | .CreateBucket _
  | .PutBucketLifecycle _ => .Put
  | .DeleteObject
  | .DeleteObjectTagging
  | .AbortMultipartUpload _
  | .PresignDelete _
  | .DeleteBucket
  | .DeleteBucketLifecycle => .Delete
  | .InitiateMultipartUpload _
  | .CompleteMultipartUpload _ _ _ _ => .Post
  | .HeadObject => .Head

/-- Content length derivation from command.rs: body byte length per variant,
with the quick_xml serialization error propagated for PutBucketLifecycle and
zero for every variant reaching the catch-all arm. -/
def Command.content_length : Command → Except S3Error Nat
  | .CopyObject _ => .ok 0
  | .PutObject content _ _ _ _ _ => .ok content.length
  | .PutObjectTagging tags => .ok (utf8Bytes tags).length
  | .UploadPart _ content _ _ => .ok content.length
  | .CompleteMultipartUpload _ data _ _ => .ok data.len
  | .CreateBucket config =>
      match config.location_constraint_payload with
      | some payload => .ok (utf8Bytes payload).length
      | none => .ok 0
  | .PutBucketLifecycle configuration =>
      match quickXmlSeToString configuration with
      | .ok s => .ok (utf8Bytes s).length
      | .error e => .error (S3Error.serde e)
  | _ => .ok 0

/-- Content type derivation from command.rs. -/
def Command.content_type : Command → String
  | .InitiateMultipartUpload content_type => content_type
  | .PutObject _ _ content_type _ _ _ => content_type
  | .CompleteMultipartUpload _ _ _ _
  | .PutBucketLifecycle _ => "application/xml"
  | _ => "text/plain"

/-- Payload digest derivation from command.rs: the hex-encoded SHA-256 of the
bytes each arm feeds to the hasher, the fixed empty-payload constant for every
variant reaching the catch-all arm, always wrapped in Ok. -/
def Command.sha256 : Command → Except S3Error String
  | .PutObject content _ _ _ _ _ => .ok (sha256Hex content)
  | .PutObjectTagging tags => .ok (sha256Hex (utf8Bytes tags))
  | .CompleteMultipartUpload _ data _ _ =>
      .ok (sha256Hex (utf8Bytes data.to_string))
  | .CreateBucket config =>
      match config.location_constraint_payload with
      | some payload => .ok (sha256Hex (utf8Bytes payload))
      | none => .ok EMPTY_PAYLOAD_SHA
  | _ => .ok EMPTY_PAYLOAD_SHA

/-- Bytes over which the digest derivation runs its hasher, read off arm for
arm from the sha256 source: the update argument where a hasher is built, the
empty sequence where the arm returns the empty-payload constant. -/
def Command.sha256Input : Command → List Nat
  | .PutObject content _ _ _ _ _ => content
  | .PutObjectTagging tags => utf8Bytes tags
  | .CompleteMultipartUpload _ data _ _ => utf8Bytes data.to_string
  | .CreateBucket config =>
      match config.location_constraint_payload with
      | some payload => utf8Bytes payload
      | none => []
  | _ => []

/-- Bodiless variants: those with no body field at all, reaching the zero arm
of content length and the constant arm of the digest derivation. -/
def Command.isBodiless : Command → Bool
  | .HeadObject
  | .CopyObject _
  | .DeleteObject
  | .DeleteObjectTagging
  | .GetObject
  | .GetObjectTorrent
  | .GetObjectRange _ _
  | .GetObjectTagging
  | .ListMultipartUploads _ _ _ _
  | .ListObjects _ _ _ _
  | .ListObjectsV2 _ _ _ _ _
  | .GetBucketLocation
  | .PresignGet _ _
  | .PresignPut _ _ _
  | .PresignDelete _
  | .InitiateMultipartUpload _
  | .AbortMultipartUpload _
  | .DeleteBucket
  | .ListBuckets
  | .PutBucketCors _
  | .GetBucketLifecycle
  | .DeleteBucketLifecycle => true
  | _ => false

/-- Signing-metadata agreement between two commands: all four derivation
functions return the same results on both. -/
def sigEq (a b : Command) : Prop :=
  a.http_verb = b.http_verb ∧ a.content_length = b.content_length ∧
  a.content_type = b.content_type ∧ a.sha256 = b.sha256

end RustS3

/-! ## Theorems -/

namespace RustS3

set_option maxRecDepth 1000000

/-- The modelled empty-payload constant is the SHA-256 of zero bytes. -/
theorem empty_payload_sha_spec : EMPTY_PAYLOAD_SHA = sha256Hex [] := by decide

/-- Every arm of the digest derivation hashes exactly the bytes read off by
sha256Input; the catch-all arms return the digest of the empty sequence. -/
theorem sha256_eq_hash_of_input (cmd : Command) :
    cmd.sha256 = Except.ok (sha256Hex cmd.sha256Input) := by
  cases cmd <;>
    try simp [Command.sha256, Command.sha256Input, empty_payload_sha_spec]
  case CreateBucket config =>
    rcases config with ⟨lc⟩
    rcases lc with _ | p <;>
      simp [Command.sha256, Command.sha256Input,
        BucketConfiguration.location_constraint_payload, empty_payload_sha_spec]

/-- Base64 encoding never produces the empty character list on nonempty input. -/
theorem base64Chars_ne_nil (l : List Nat) (h : l ≠ []) : base64Chars l ≠ [] := by
  match l with
  | [] => exact absurd rfl h
  | [a] => simp [base64Chars]
  | [a, b] => simp [base64Chars]
  | a :: b :: c :: rest => simp [base64Chars]

/-- UTF-8 encoding of a code point always produces at least one byte. -/
theorem utf8EncodeChar_ne_nil (c : Nat) : utf8EncodeChar c ≠ [] := by
  unfold utf8EncodeChar
  split <;> try simp
  split <;> try simp
  split <;> simp

/-- UTF-8 encoding of a nonempty string is a nonempty byte sequence. -/
theorem utf8Bytes_ne_nil (s : String) (h : s ≠ "") : utf8Bytes s ≠ [] := by
  rcases s with ⟨l⟩
  cases l with
  | nil => exact absurd rfl h
  | cons c cs =>
    intro heq
    have : utf8EncodeChar c.toNat ++
        cs.foldr (fun c acc => utf8EncodeChar c.toNat ++ acc) [] = [] := heq
    rw [List.append_eq_nil] at this
    exact utf8EncodeChar_ne_nil c.toNat this.1

/-- C1 counterexample: the claim fails at the body-bearing variant UploadPart
with a one-byte body. Content length measures the one-byte content, but the
digest derivation reaches the catch-all arm, so the sequence it hashes is the
empty one: length measured and length hashed disagree, refuting the claimed
equality at this input. -/
theorem uploadPart_measures_but_hashes_empty :
    (Command.UploadPart 1 [65] ContentMd5.Auto "u").sha256 =
      Except.ok (sha256Hex (Command.UploadPart 1 [65] ContentMd5.Auto "u").sha256Input) ∧
    (Command.UploadPart 1 [65] ContentMd5.Auto "u").sha256Input = [] ∧
    (Command.UploadPart 1 [65] ContentMd5.Auto "u").content_length = Except.ok 1 ∧
    ¬ (Command.UploadPart 1 [65] ContentMd5.Auto "u").content_length =
        Except.ok (Command.UploadPart 1 [65] ContentMd5.Auto "u").sha256Input.length := by
  refine ⟨sha256_eq_hash_of_input _, rfl, rfl, ?_⟩
  intro h
  simp [Command.content_length, Command.sha256Input] at h

/-- C1 amended: content length equals the byte length of the exact sequence
the digest derivation hashes for PutObject, PutObjectTagging,
CompleteMultipartUpload and CreateBucket (with or without a
location-constraint payload); UploadPart with nonempty content and
PutBucketLifecycle (whether its serialization yields a nonempty XML string
or fails) do not share one byte source, since both measure the body while
their digest arm is the catch-all hashing the empty sequence. -/
theorem length_matches_hash_input_for_put_family :
    (∀ content md5 ct mp cc cd,
      (Command.PutObject content md5 ct mp cc cd).content_length =
        Except.ok (Command.PutObject content md5 ct mp cc cd).sha256Input.length) ∧
    (∀ tags,
      (Command.PutObjectTagging tags).content_length =
        Except.ok (Command.PutObjectTagging tags).sha256Input.length) ∧
    (∀ uid data cc cd,
      (Command.CompleteMultipartUpload uid data cc cd).content_length =
        Except.ok (Command.CompleteMultipartUpload uid data cc cd).sha256Input.length) ∧
    (∀ config,
      (Command.CreateBucket config).content_length =
        Except.ok (Command.CreateBucket config).sha256Input.length) ∧
    (∀ pn content md5 uid, content ≠ [] →
      ¬ (Command.UploadPart pn content md5 uid).content_length =
          Except.ok (Command.UploadPart pn content md5 uid).sha256Input.length) ∧
    (∀ s, s ≠ "" →
      ¬ (Command.PutBucketLifecycle ⟨Except.ok s⟩).content_length =
          Except.ok (Command.PutBucketLifecycle ⟨Except.ok s⟩).sha256Input.length) ∧
    (∀ e n, ¬ (Command.PutBucketLifecycle ⟨Except.error e⟩).content_length =
        Except.ok n) := by
  refine ⟨fun _ _ _ _ _ _ => rfl, fun _ => rfl,
    fun _ d _ _ => ?_, fun config => ?_, fun pn content md5 uid hne h => ?_,
    fun s hs h => ?_, fun e n h => ?_⟩
  · simp [Command.content_length, Command.sha256Input,
      CompleteMultipartUploadData.len, CompleteMultipartUploadData.to_string]
  · rcases config with ⟨lc⟩
    rcases lc with _ | p <;>
      simp [Command.content_length, Command.sha256Input,
        BucketConfiguration.location_constraint_payload]
  · simp only [Command.content_length, Command.sha256Input,
      List.length_nil, Except.ok.injEq] at h
    exact hne (List.length_eq_zero.mp h)
  · simp only [Command.content_length, Command.sha256Input, quickXmlSeToString,
      List.length_nil, Except.ok.injEq] at h
    exact utf8Bytes_ne_nil s hs (List.length_eq_zero.mp h)
  · simp [Command.content_length, quickXmlSeToString] at h

/-- C1 amended witness: the length-hash agreement at a concrete tag string,
and the disagreement at a concrete one-byte UploadPart body, at a concrete
nonempty lifecycle serialization, and at a concrete failing one. -/
theorem length_matches_hash_input_for_put_family_witness :
    (Command.PutObjectTagging "t").content_length =
      Except.ok (Command.PutObjectTagging "t").sha256Input.length ∧
    ¬ (Command.UploadPart 1 [65] ContentMd5.Auto "u").content_length =
        Except.ok (Command.UploadPart 1 [65] ContentMd5.Auto "u").sha256Input.length ∧
    ¬ (Command.PutBucketLifecycle ⟨Except.ok "<x/>"⟩).content_length =
        Except.ok (Command.PutBucketLifecycle ⟨Except.ok "<x/>"⟩).sha256Input.length ∧
    ¬ (Command.PutBucketLifecycle ⟨Except.error "bad"⟩).content_length =
        Except.ok (Command.PutBucketLifecycle ⟨Except.error "bad"⟩).sha256Input.length :=
  ⟨length_matches_hash_input_for_put_family.2.1 "t",
   length_matches_hash_input_for_put_family.2.2.2.2.1 1 [65] ContentMd5.Auto "u"
     (by decide),
   length_matches_hash_input_for_put_family.2.2.2.2.2.1 "<x/>" (by decide),
   length_matches_hash_input_for_put_family.2.2.2.2.2.2 "bad" 0⟩

/-- C2 counterexample: converting a byte buffer into ContentMd5 does not
produce the base64 encoding of any 16-byte digest of the buffer, in
particular not of its MD5 digest (MD5 is abstracted here by its defining
output length of 16 bytes): at the empty buffer the conversion yields the
empty string, while base64 of a 16-byte digest is never empty. -/
theorem contentMd5_not_md5_digest :
    ¬ ∃ md5fn : List Nat → List Nat,
      (∀ b, (md5fn b).length = 16) ∧
      (∀ b, ContentMd5.fromBytes b = ContentMd5.Some (base64Encode (md5fn b))) := by
  rintro ⟨f, hlen, h⟩
  have h0 := h []
  have hne : f [] ≠ [] := by
    intro hnil
    have := hlen []
    rw [hnil] at this
    simp at this
  have hchars : base64Chars (f []) ≠ [] := base64Chars_ne_nil _ hne
  have : ContentMd5.Some (base64Encode []) = ContentMd5.Some (base64Encode (f [])) := h0
  simp only [ContentMd5.Some.injEq, base64Encode, base64Chars] at this
  exact hchars (congrArg String.data this).symm

/-- C2 amended: the conversion base64-encodes the supplied bytes themselves,
with no MD5 computation, and wraps them in the Some variant; the empty buffer
deterministically yields Some of the empty string. -/
theorem contentMd5_encodes_raw_bytes :
    (∀ b, ContentMd5.fromBytes b = ContentMd5.Some (base64Encode b)) ∧
    ContentMd5.fromBytes [] = ContentMd5.Some "" := by
  exact ⟨fun _ => rfl, rfl⟩

/-- C3: CreateBucket with no location-constraint payload has zero content
length and the fixed empty-payload digest; with a payload, the content length
is the byte length of that payload and the digest is the SHA-256 of those
same payload bytes. -/
theorem createBucket_length_and_digest :
    ((Command.CreateBucket ⟨none⟩).content_length = Except.ok 0 ∧
     (Command.CreateBucket ⟨none⟩).sha256 = Except.ok EMPTY_PAYLOAD_SHA) ∧
    (∀ p, (Command.CreateBucket ⟨some p⟩).content_length =
        Except.ok (utf8Bytes p).length ∧
      (Command.CreateBucket ⟨some p⟩).sha256 =
        Except.ok (sha256Hex (utf8Bytes p))) := by
  exact ⟨⟨rfl, rfl⟩, fun p => ⟨rfl, rfl⟩⟩

/-- C4: PutBucketLifecycle content length propagates a failed XML
serialization as an explicit error, never any Ok value; a successful
serialization yields the byte length of the serialized XML string. -/
theorem putBucketLifecycle_length_error_propagation :
    (∀ e, (Command.PutBucketLifecycle ⟨Except.error e⟩).content_length =
        Except.error (S3Error.serde e)) ∧
    (∀ e n, ¬ (Command.PutBucketLifecycle ⟨Except.error e⟩).content_length =
        Except.ok n) ∧
    (∀ s, (Command.PutBucketLifecycle ⟨Except.ok s⟩).content_length =
        Except.ok (utf8Bytes s).length) := by
  refine ⟨fun e => rfl, fun e n h => ?_, fun s => rfl⟩
  simp [Command.content_length, quickXmlSeToString] at h

/-- C4 witness: a concrete failing serialization yields the error, is not the
Ok zero, and a concrete two-character serialization yields its byte length. -/
theorem putBucketLifecycle_length_error_propagation_witness :
    (Command.PutBucketLifecycle ⟨Except.error "boom"⟩).content_length =
      Except.error (S3Error.serde "boom") ∧
    ¬ (Command.PutBucketLifecycle ⟨Except.error "boom"⟩).content_length =
        Except.ok 0 ∧
    (Command.PutBucketLifecycle ⟨Except.ok "ab"⟩).content_length =
      Except.ok (utf8Bytes "ab").length :=
  ⟨putBucketLifecycle_length_error_propagation.1 "boom",
   putBucketLifecycle_length_error_propagation.2.1 "boom" 0,
   putBucketLifecycle_length_error_propagation.2.2 "ab"⟩

/-- C8: the multipart query string is exactly the question-mark form with the
decimal part number and the upload id interpolated verbatim, and the concrete
instance with part number 3 and upload id abc renders as stated. -/
theorem multipart_query_string_format :
    (∀ n s, (Multipart.new n s).query_string =
      "?partNumber=" ++ toString n ++ "&uploadId=" ++ s) ∧
    (Multipart.new 3 "abc").query_string = "?partNumber=3&uploadId=abc" := by
  exact ⟨fun _ _ => rfl, by decide⟩

/-- C10: the digest derivation returns Ok on every command; in particular a
PutBucketLifecycle whose configuration fails to serialize still yields the Ok
empty-payload constant, because the digest arm never attempts serialization,
and CreateBucket's location-constraint accessor cannot fail. -/
theorem sha256_total_ok :
    (∀ c : Command, ∃ s, c.sha256 = Except.ok s) ∧
    (∀ e, (Command.PutBucketLifecycle ⟨Except.error e⟩).sha256 =
        Except.ok EMPTY_PAYLOAD_SHA) ∧
    (∀ config, (Command.CreateBucket config).sha256 ≠
        Except.error (S3Error.serde "")) := by
  refine ⟨fun c => ⟨_, sha256_eq_hash_of_input c⟩, fun e => rfl, fun config h => ?_⟩
  rw [sha256_eq_hash_of_input] at h
  exact Except.noConfusion h

/-- C10 witness: the digest derivation at concrete commands, including a
lifecycle configuration whose serialization fails and a default-region bucket
configuration. -/
theorem sha256_total_ok_witness :
    (∃ s, Command.HeadObject.sha256 = Except.ok s) ∧
    (Command.PutBucketLifecycle ⟨Except.error "x"⟩).sha256 =
      Except.ok EMPTY_PAYLOAD_SHA ∧
    (Command.CreateBucket ⟨none⟩).sha256 ≠ Except.error (S3Error.serde "") :=
  ⟨sha256_total_ok.1 Command.HeadObject, sha256_total_ok.2.1 "x",
   sha256_total_ok.2.2 ⟨none⟩⟩

/-- C5: the HTTP verb derivation is total and follows the documented table on
every variant; each verb is one of the five members of the enumeration. -/
theorem http_verb_total_table :
    (∀ c : Command, c.http_verb = .Delete ∨ c.http_verb = .Get ∨
      c.http_verb = .Put ∨ c.http_verb = .Post ∨ c.http_verb = .Head) ∧
    Command.HeadObject.http_verb = .Head ∧
    Command.GetObject.http_verb = .Get ∧
    Command.GetObjectTorrent.http_verb = .Get ∧
    (∀ a b, (Command.GetObjectRange a b).http_verb = .Get) ∧
    Command.GetObjectTagging.http_verb = .Get ∧
    Command.GetBucketLocation.http_verb = .Get ∧
    Command.GetBucketLifecycle.http_verb = .Get ∧
    Command.ListBuckets.http_verb = .Get ∧
    (∀ a b c d, (Command.ListObjects a b c d).http_verb = .Get) ∧
    (∀ a b c d e, (Command.ListObjectsV2 a b c d e).http_verb = .Get) ∧
    (∀ a b c d, (Command.ListMultipartUploads a b c d).http_verb = .Get) ∧
    (∀ a b, (Command.PresignGet a b).http_verb = .Get) ∧
    (∀ a b c d e f, (Command.PutObject a b c d e f).http_verb = .Put) ∧
    (∀ a, (Command.CopyObject a).http_verb = .Put) ∧
    (∀ a, (Command.PutObjectTagging a).http_verb = .Put) ∧
    (∀ a b c d, (Command.UploadPart a b c d).http_verb = .Put) ∧
    (∀ a, (Command.PutBucketCors a).http_verb = .Put) ∧
    (∀ a, (Command.CreateBucket a).http_verb = .Put) ∧
    (∀ a, (Command.PutBucketLifecycle a).http_verb = .Put) ∧
    (∀ a b c, (Command.PresignPut a b c).http_verb = .Put) ∧
    Command.DeleteObject.http_verb = .Delete ∧
    Command.DeleteObjectTagging.http_verb = .Delete ∧
    (∀ a, (Command.AbortMultipartUpload a).http_verb = .Delete) ∧
    Command.DeleteBucket.http_verb = .Delete ∧
    Command.DeleteBucketLifecycle.http_verb = .Delete ∧
    (∀ a, (Command.PresignDelete a).http_verb = .Delete) ∧
    (∀ a, (Command.InitiateMultipartUpload a).http_verb = .Post) ∧
    (∀ a b c d, (Command.CompleteMultipartUpload a b c d).http_verb = .Post) := by
  constructor
  · intro c
    cases h : c.http_verb
    · exact Or.inl rfl
    · exact Or.inr (Or.inl rfl)
    · exact Or.inr (Or.inr (Or.inl rfl))
    · exact Or.inr (Or.inr (Or.inr (Or.inl rfl)))
    · exact Or.inr (Or.inr (Or.inr (Or.inr rfl)))
  · repeat' apply And.intro
    all_goals intros
    all_goals rfl

/-- C6: the content type derivation returns the caller-supplied type verbatim
for PutObject and InitiateMultipartUpload, the fixed XML type for
CompleteMultipartUpload and PutBucketLifecycle, and the fixed plain-text type
for every other variant. -/
theorem content_type_table :
    (∀ a b ct d e f, (Command.PutObject a b ct d e f).content_type = ct) ∧
    (∀ ct, (Command.InitiateMultipartUpload ct).content_type = ct) ∧
    (∀ a b c d, (Command.CompleteMultipartUpload a b c d).content_type =
      "application/xml") ∧
    (∀ a, (Command.PutBucketLifecycle a).content_type = "application/xml") ∧
    Command.HeadObject.content_type = "text/plain" ∧
    (∀ a, (Command.CopyObject a).content_type = "text/plain") ∧
    Command.DeleteObject.content_type = "text/plain" ∧
    Command.DeleteObjectTagging.content_type = "text/plain" ∧
    Command.GetObject.content_type = "text/plain" ∧
    Command.GetObjectTorrent.content_type = "text/plain" ∧
    (∀ a b, (Command.GetObjectRange a b).content_type = "text/plain") ∧
    Command.GetObjectTagging.content_type = "text/plain" ∧
    (∀ a, (Command.PutObjectTagging a).content_type = "text/plain") ∧
    (∀ a b c d, (Command.ListMultipartUploads a b c d).content_type = "text/plain") ∧
    (∀ a b c d, (Command.ListObjects a b c d).content_type = "text/plain") ∧
    (∀ a b c d e, (Command.ListObjectsV2 a b c d e).content_type = "text/plain") ∧
    Command.GetBucketLocation.content_type = "text/plain" ∧
    (∀ a b, (Command.PresignGet a b).content_type = "text/plain") ∧
    (∀ a b c, (Command.PresignPut a b c).content_type = "text/plain") ∧
    (∀ a, (Command.PresignDelete a).content_type = "text/plain") ∧
    (∀ a b c d, (Command.UploadPart a b c d).content_type = "text/plain") ∧
    (∀ a, (Command.AbortMultipartUpload a).content_type = "text/plain") ∧
    (∀ a, (Command.CreateBucket a).content_type = "text/plain") ∧
    Command.DeleteBucket.content_type = "text/plain" ∧
    Command.ListBuckets.content_type = "text/plain" ∧
    (∀ a, (Command.PutBucketCors a).content_type = "text/plain") ∧
    Command.GetBucketLifecycle.content_type = "text/plain" ∧
    Command.DeleteBucketLifecycle.content_type = "text/plain" := by
  repeat' apply And.intro
  all_goals intros
  all_goals rfl

/-- C7: every bodiless variant has content length zero and the fixed
empty-payload digest, which is the 64-character hex SHA-256 of the empty byte
sequence. -/
theorem bodiless_zero_length_empty_digest (c : Command)
    (h : c.isBodiless = true) :
    c.content_length = Except.ok 0 ∧
    c.sha256 = Except.ok EMPTY_PAYLOAD_SHA ∧
    EMPTY_PAYLOAD_SHA = sha256Hex [] ∧
    EMPTY_PAYLOAD_SHA.length = 64 := by
  refine ⟨?_, ?_, empty_payload_sha_spec, rfl⟩ <;>
    cases c <;>
      first
        | rfl
        | exact absurd h (by simp [Command.isBodiless])

/-- C7 witness: the bodiless HeadObject command instantiates the theorem. -/
theorem bodiless_zero_length_empty_digest_witness :
    Command.HeadObject.content_length = Except.ok 0 ∧
    Command.HeadObject.sha256 = Except.ok EMPTY_PAYLOAD_SHA ∧
    EMPTY_PAYLOAD_SHA = sha256Hex [] ∧
    EMPTY_PAYLOAD_SHA.length = 64 :=
  bodiless_zero_length_empty_digest Command.HeadObject rfl

/-- C9: fields outside the derivation set never affect signing metadata: two
commands of the same variant that differ only in md5 policy, multipart
descriptor, cache-control, content-disposition, pagination tokens, markers,
prefixes, delimiters, size limits, expiry seconds or custom headers and
queries agree on all four derivation functions. -/
theorem structural_fields_noninterference :
    (∀ content ct md5 md5' mp mp' cc cc' cd cd',
      sigEq (Command.PutObject content md5 ct mp cc cd)
        (Command.PutObject content md5' ct mp' cc' cd')) ∧
    (∀ pn content uid md5 md5',
      sigEq (Command.UploadPart pn content md5 uid)
        (Command.UploadPart pn content md5' uid)) ∧
    (∀ uid data cc cc' cd cd',
      sigEq (Command.CompleteMultipartUpload uid data cc cd)
        (Command.CompleteMultipartUpload uid data cc' cd')) ∧
    (∀ p p' d d' m m' k k',
      sigEq (Command.ListObjects p d m k) (Command.ListObjects p' d' m' k')) ∧
    (∀ p p' d d' t t' s s' k k',
      sigEq (Command.ListObjectsV2 p d t s k)
        (Command.ListObjectsV2 p' d' t' s' k')) ∧
    (∀ p p' d d' m m' u u',
      sigEq (Command.ListMultipartUploads p d m u)
        (Command.ListMultipartUploads p' d' m' u')) ∧
    (∀ e e' q q', sigEq (Command.PresignGet e q) (Command.PresignGet e' q')) ∧
    (∀ e e' hm hm' q q',
      sigEq (Command.PresignPut e hm q) (Command.PresignPut e' hm' q')) ∧
    (∀ e e', sigEq (Command.PresignDelete e) (Command.PresignDelete e')) := by
  repeat' apply And.intro
  all_goals intros
  all_goals exact ⟨rfl, rfl, rfl, rfl⟩

end RustS3
